import Mathlib

/-!
Verification of `src/control.py` (hand-gesture volume control).

Shallow embedding notes:
* All numeric computation in the source happens in IEEE doubles; we model it
  exactly over `ℚ`.  The constants `50, 300, -21, 0, 600, 10, 100, 400, 150`
  and the interpolation formulas are exact.
* `np.interp(x, [x0, x1], [y0, y1])` is clamped linear interpolation; it is
  embedded as `np_interp` below.
* `math.hypot(x2 - x1, y2 - y1)` is a nonnegative real square root, in general
  irrational; the measured fingertip distance is therefore passed to the model
  of `process_hand_landmarks` as a rational parameter `length`, and every
  theorem quantifies over it.
* Python `int(q)` truncates toward zero; it is embedded as `pyInt`.
* Drawing calls (`cv2.circle`, `cv2.line`, `cv2.rectangle`, `cv2.putText`)
  are modelled as emitted `Draw` commands; `cv2.FILLED = -1` is the thickness.
* `volume.SetMasterVolumeLevel` may raise; the outcome of that external call
  is an `Except String Unit` input to the model, and the `try/except` of
  lines 60-92 is embedded as a `match` on it.  `volume.GetMute` is a `Bool`
  input (`mute`).
-/

namespace Control

/-- Constants, src/control.py lines 9-26. -/
def MIN_LENGTH : ℚ := 50

def MAX_LENGTH : ℚ := 300

def MIN_VOLUME : ℚ := -21

def MAX_VOLUME : ℚ := 0

def CIRCLE_RADIUS : ℕ := 15

def LINE_THICKNESS : ℤ := 3

def FONT_COLOR : ℕ × ℕ × ℕ := (255, 255, 255)

def VOLUME_BAR_COLOR_LOW : ℕ × ℕ × ℕ := (0, 255, 0)

def VOLUME_BAR_COLOR_HIGH : ℕ × ℕ × ℕ := (0, 0, 255)

def VOLUME_BAR_COLOR_MUTE : ℕ × ℕ × ℕ := (0, 0, 0)

def HAND_ICON_RADIUS : ℕ := 30

def HAND_ICON_COLOR : ℕ × ℕ × ℕ := (255, 255, 255)

/-- OpenCV constant `cv2.FILLED` (thickness -1 fills the shape). -/
def FILLED : ℤ := -1

/-- Python `int(q)`: truncation toward zero. -/
def pyInt (q : ℚ) : ℤ := if 0 ≤ q then ⌊q⌋ else ⌈q⌉

/-- Two-point `np.interp(x, [x0, x1], [y0, y1])`: clamped linear
interpolation. NumPy returns `y0` for `x ≤ x0`, `y1` for `x ≥ x1`, and
linearly interpolates in between. -/
def np_interp (x x0 x1 y0 y1 : ℚ) : ℚ :=
  if x ≤ x0 then y0
  else if x1 ≤ x then y1
  else y0 + (x - x0) * (y1 - y0) / (x1 - x0)

/-- src/control.py lines 28-30. -/
def calculate_volume (length : ℚ) : ℚ :=
  np_interp length MIN_LENGTH MAX_LENGTH MIN_VOLUME MAX_VOLUME

/-- src/control.py lines 32-34. -/
def calculate_volume_bar (length : ℚ) : ℚ :=
  np_interp length MIN_LENGTH MAX_LENGTH 600 10

/-- src/control.py lines 36-38. -/
def calculate_volume_percentage (length : ℚ) : ℚ :=
  np_interp length MIN_LENGTH MAX_LENGTH 0 100

lemma np_interp_left {x x0 : ℚ} (x1 y0 y1 : ℚ) (h : x ≤ x0) :
    np_interp x x0 x1 y0 y1 = y0 := by
  simp [np_interp, h]

lemma np_interp_right {x x0 x1 : ℚ} (y0 y1 : ℚ) (h01 : x0 < x1) (h : x1 ≤ x) :
    np_interp x x0 x1 y0 y1 = y1 := by
  have hx : ¬ x ≤ x0 := by linarith
  simp [np_interp, hx, h]

lemma np_interp_mid {x x0 x1 : ℚ} (y0 y1 : ℚ) (h0 : x0 < x) (h1 : x < x1) :
    np_interp x x0 x1 y0 y1 = y0 + (x - x0) * (y1 - y0) / (x1 - x0) := by
  have hx : ¬ x ≤ x0 := by linarith
  have hx' : ¬ x1 ≤ x := by linarith
  simp [np_interp, hx, hx']

lemma calculate_volume_mid {d : ℚ} (h0 : 50 < d) (h1 : d < 300) :
    calculate_volume d = -21 + (d - 50) * (21 / 250) := by
  unfold calculate_volume MIN_LENGTH MAX_LENGTH MIN_VOLUME MAX_VOLUME
  rw [np_interp_mid _ _ h0 h1]
  ring

lemma calculate_volume_bar_mid {d : ℚ} (h0 : 50 < d) (h1 : d < 300) :
    calculate_volume_bar d = 600 - (d - 50) * (590 / 250) := by
  unfold calculate_volume_bar MIN_LENGTH MAX_LENGTH
  rw [np_interp_mid _ _ h0 h1]
  ring

lemma calculate_volume_percentage_mid {d : ℚ} (h0 : 50 < d) (h1 : d < 300) :
    calculate_volume_percentage d = (d - 50) * (100 / 250) := by
  unfold calculate_volume_percentage MIN_LENGTH MAX_LENGTH
  rw [np_interp_mid _ _ h0 h1]
  ring

lemma calculate_volume_nonpos (d : ℚ) : calculate_volume d ≤ 0 := by
  rcases le_or_lt d 50 with h | h
  · rw [show calculate_volume d = np_interp d 50 300 (-21) 0 from rfl,
      np_interp_left _ _ _ h]
    norm_num
  · rcases lt_or_le d 300 with h' | h'
    · rw [calculate_volume_mid h h']
      linarith
    · rw [show calculate_volume d = np_interp d 50 300 (-21) 0 from rfl,
        np_interp_right _ _ (by norm_num) h']

lemma calculate_volume_lb (d : ℚ) : -21 ≤ calculate_volume d := by
  rcases le_or_lt d 50 with h | h
  · rw [show calculate_volume d = np_interp d 50 300 (-21) 0 from rfl,
      np_interp_left _ _ _ h]
  · rcases lt_or_le d 300 with h' | h'
    · rw [calculate_volume_mid h h']
      linarith
    · rw [show calculate_volume d = np_interp d 50 300 (-21) 0 from rfl,
        np_interp_right _ _ (by norm_num) h']
      norm_num

/-- C1 helper: strict monotonicity of `calculate_volume` on (50, 300). -/
lemma calculate_volume_strictMonoOn {a b : ℚ} (ha : 50 < a) (hab : a < b)
    (hb : b < 300) : calculate_volume a < calculate_volume b := by
  rw [calculate_volume_mid ha (lt_trans hab hb),
    calculate_volume_mid (lt_trans ha hab) hb]
  linarith

lemma calculate_volume_bar_bounds (d : ℚ) :
    10 ≤ calculate_volume_bar d ∧ calculate_volume_bar d ≤ 600 := by
  rcases le_or_lt d 50 with h | h
  · rw [show calculate_volume_bar d = np_interp d 50 300 600 10 from rfl,
      np_interp_left _ _ _ h]
    norm_num
  · rcases lt_or_le d 300 with h' | h'
    · rw [calculate_volume_bar_mid h h']
      constructor <;> linarith
    · rw [show calculate_volume_bar d = np_interp d 50 300 600 10 from rfl,
        np_interp_right _ _ (by norm_num) h']
      norm_num

lemma calculate_volume_percentage_bounds (d : ℚ) :
    0 ≤ calculate_volume_percentage d ∧ calculate_volume_percentage d ≤ 100 := by
  rcases le_or_lt d 50 with h | h
  · rw [show calculate_volume_percentage d = np_interp d 50 300 0 100 from rfl,
      np_interp_left _ _ _ h]
    norm_num
  · rcases lt_or_le d 300 with h' | h'
    · rw [calculate_volume_percentage_mid h h']
      constructor <;> linarith
    · rw [show calculate_volume_percentage d = np_interp d 50 300 0 100 from rfl,
        np_interp_right _ _ (by norm_num) h']
      norm_num

/-- One emitted OpenCV drawing command. `thickness = FILLED = -1` means the
shape is filled (`cv2.FILLED`). -/
inductive Draw where
  | circle (center : ℤ × ℤ) (radius : ℕ) (color : ℕ × ℕ × ℕ) (thickness : ℤ)
  | line (p q : ℤ × ℤ) (color : ℕ × ℕ × ℕ) (thickness : ℤ)
  | rectangle (p q : ℤ × ℤ) (color : ℕ × ℕ × ℕ) (thickness : ℤ)
  | text (s : String) (org : ℤ × ℤ) (color : ℕ × ℕ × ℕ)
deriving DecidableEq, Repr

/-- Result of one `process_hand_landmarks` call: the drawing commands emitted
on the frame, the console log lines printed, the arguments of the
`SetMasterVolumeLevel` calls made, and the returned `length` value. -/
structure PHLResult where
  draws : List Draw
  logs : List String
  setVolumeCalls : List ℚ
  returnedLength : ℚ
deriving DecidableEq, Repr

/-- Drawing commands of src/control.py lines 51-58, emitted before the
`try` block: the two fingertip circles, the connecting line, and (when
`length < MIN_LENGTH`) the white midpoint circle.  `lm` is `lmList`
projected to its pixel coordinates, so `lm.getD 4 / lm.getD 8` are
`(x1, y1) / (x2, y2)`; Python `//` is `Int.fdiv`. -/
def preTryDraws (lm : List (ℤ × ℤ)) (length : ℚ) : List Draw :=
  let p1 := lm.getD 4 (0, 0)
  let p2 := lm.getD 8 (0, 0)
  let z1 := Int.fdiv (p1.1 + p2.1) 2
  let z2 := Int.fdiv (p1.2 + p2.2) 2
  [Draw.circle p1 CIRCLE_RADIUS (255, 0, 0) FILLED,
   Draw.circle p2 CIRCLE_RADIUS (255, 0, 0) FILLED,
   Draw.line p1 p2 (255, 0, 255) LINE_THICKNESS] ++
  (if length < MIN_LENGTH then
    [Draw.circle (z1, z2) CIRCLE_RADIUS (255, 255, 255) FILLED]
  else [])

/-- Drawing commands of src/control.py lines 68-89, emitted inside the `try`
block after `SetMasterVolumeLevel` and `GetMute` succeeded: the volume bar
rectangles, the percentage text, the two instruction strings, and — when
`abs volume_level > 1.0` — the visual-feedback flash circle.  Its center
`(cx, cy)` reuses the leaked loop variables of lines 43-45, i.e. the pixel
coordinates of the LAST enumerated landmark, hence `lm.getLastD`. -/
def tryDraws (lm : List (ℤ × ℤ)) (length : ℚ) (mute : Bool) : List Draw :=
  let volume_level := calculate_volume length
  let volBar := calculate_volume_bar length
  let volPer := calculate_volume_percentage length
  let vol_color :=
    if mute then VOLUME_BAR_COLOR_MUTE
    else if volume_level < 0 then VOLUME_BAR_COLOR_LOW
    else VOLUME_BAR_COLOR_HIGH
  [Draw.rectangle (50, 150) (85, 400) vol_color LINE_THICKNESS,
   Draw.rectangle (50, pyInt volBar) (85, 400) vol_color FILLED,
   Draw.text (toString (pyInt volPer) ++ "%") (40, 450) FONT_COLOR,
   Draw.text "Spread your fingers to adjust volume." (20, 30) FONT_COLOR,
   Draw.text "Bring fingertips close to mute." (20, 55) FONT_COLOR] ++
  (if 1 < |volume_level| then
    [Draw.circle (lm.getLastD (0, 0)) CIRCLE_RADIUS
      (if 0 < volume_level then (0, 255, 0) else (0, 0, 255)) LINE_THICKNESS]
  else [])

/-- src/control.py lines 40-94.  `lm` is the pixel-coordinate `lmList`
(21 entries for a real detector result); `length` is the measured fingertip
distance `math.hypot(x2 - x1, y2 - y1)`, passed as a parameter (see header);
`setVolumeResult` is the outcome of the external
`volume.SetMasterVolumeLevel(volume_level, None)` call and `mute` the value
returned by `volume.GetMute()`.  When the apply raises, control jumps from
line 65 to the `except` of lines 91-92: the error is printed and the
remaining `try`-block drawing is skipped; `return length` on line 94 runs in
both cases.  (For an empty `lm` the source would hit a `NameError` on
line 94; that branch is unreachable for detector output and the claims carry
a nonemptiness hypothesis.) -/
def process_hand_landmarks (lm : List (ℤ × ℤ)) (length : ℚ)
    (setVolumeResult : Except String Unit) (mute : Bool) : PHLResult :=
  if lm.isEmpty then ⟨[], [], [], length⟩
  else
    let volume_level := calculate_volume length
    match setVolumeResult with
    | Except.error e =>
        ⟨preTryDraws lm length, ["Error updating volume: " ++ e],
         [volume_level], length⟩
    | Except.ok _ =>
        ⟨preTryDraws lm length ++ tryDraws lm length mute, [],
         [volume_level], length⟩

/-- A drawing command that can only originate from the `try` block of
`process_hand_landmarks` (rectangles, text, or an unfilled circle — every
circle drawn before the `try` block uses `cv2.FILLED`). -/
def isTryOverlay : Draw → Bool
  | Draw.rectangle _ _ _ _ => true
  | Draw.text _ _ _ => true
  | Draw.circle _ _ _ t => if t = FILLED then false else true
  | Draw.line _ _ _ _ => false

/-- The y-coordinate computed by `display_volume_indicator`,
src/control.py lines 96-99 (the circle is then drawn at x = 40). -/
def display_volume_indicator_y (volume_level : ℚ) : ℤ :=
  pyInt (np_interp volume_level MIN_VOLUME MAX_VOLUME 400 150)

/-- src/control.py lines 102-110. -/
def display_volume_message (volume_level : ℚ) : String :=
  if -5 < volume_level then "Volume is high! Lower it down a bit."
  else if -12 < volume_level then "Volume is moderate. Enjoy your music!"
  else "Volume is low. Turn it up for a better experience!"

/-- One camera frame on which a hand was detected: the pixel landmark list,
the measured fingertip distance, and the outcomes of the two external audio
calls made while processing it. -/
structure Frame where
  lm : List (ℤ × ℤ)
  dist : ℚ
  setVolumeResult : Except String Unit
  mute : Bool

/-- The `length` returned by `process_hand_landmarks` for a hand frame
(src/control.py line 144). -/
def runFrame (f : Frame) : ℚ :=
  (process_hand_landmarks f.lm f.dist f.setVolumeResult f.mute).returnedLength

/-- One iteration of `main`'s loop, as a transition of the `length` state
(src/control.py lines 131-149): when a hand is detected (`some f`) the
state becomes the value returned by `process_hand_landmarks`; otherwise
(`none`, line 136 test fails) `length` keeps its previous value. -/
def mainStep (length : ℚ) : Option Frame → ℚ
  | some f => runFrame f
  | none => length

/-- The `length` value in scope at src/control.py line 147 (the volume-level
computation) on each successive iteration, starting from state `length`
(`main` initializes it to `MAX_LENGTH`, line 127). -/
def loopLengths (length : ℚ) : List (Option Frame) → List ℚ
  | [] => []
  | f :: rest => mainStep length f :: loopLengths (mainStep length f) rest

lemma process_hand_landmarks_returnedLength (lm : List (ℤ × ℤ)) (length : ℚ)
    (r : Except String Unit) (m : Bool) :
    (process_hand_landmarks lm length r m).returnedLength = length := by
  unfold process_hand_landmarks
  rcases lm.isEmpty with _ | _ <;> rcases r with e | u <;> simp

lemma runFrame_dist (f : Frame) : runFrame f = f.dist :=
  process_hand_landmarks_returnedLength _ _ _ _

lemma getD_append_left_length {α : Type} (d : α) (pre rest : List α) (k : ℕ) :
    (pre ++ rest).getD (pre.length + k) d = rest.getD k d := by
  induction pre with
  | nil => simp
  | cons a pre ih =>
    have h : (a :: pre).length + k = (pre.length + k) + 1 := by
      simp [List.length_cons]
      omega
    rw [h, List.cons_append, List.getD_cons_succ, ih]

lemma getD_replicate_lt {α : Type} (d x : α) {n i : ℕ} (h : i < n) :
    (List.replicate n x).getD i d = x := by
  induction n generalizing i with
  | zero => omega
  | succ n ih =>
    cases i with
    | zero => simp [List.replicate_succ]
    | succ i =>
      rw [List.replicate_succ, List.getD_cons_succ]
      exact ih (by omega)

lemma getD_of_all_none (post : List (Option Frame))
    (h : ∀ g ∈ post, g = none) (i : ℕ) : post.getD i none = none := by
  induction post generalizing i with
  | nil => simp
  | cons g rest ih =>
    cases i with
    | zero => simpa using h g (List.mem_cons_self g rest)
    | succ i =>
      rw [List.getD_cons_succ]
      exact ih (fun g' hg' => h g' (List.mem_cons_of_mem _ hg')) i

lemma loopLengths_length (init : ℚ) (l : List (Option Frame)) :
    (loopLengths init l).length = l.length := by
  induction l generalizing init with
  | nil => rfl
  | cons f rest ih => simp [loopLengths, ih]

lemma loopLengths_append (init : ℚ) (xs ys : List (Option Frame)) :
    loopLengths init (xs ++ ys) =
      loopLengths init xs ++ loopLengths (xs.foldl mainStep init) ys := by
  induction xs generalizing init with
  | nil => simp [loopLengths]
  | cons f xs ih => simp [loopLengths, ih, List.foldl_cons]

lemma loopLengths_of_all_none (d : ℚ) (post : List (Option Frame))
    (h : ∀ g ∈ post, g = none) :
    loopLengths d post = List.replicate post.length d := by
  induction post with
  | nil => rfl
  | cons g rest ih =>
    have hg : g = none := h g (List.mem_cons_self g rest)
    subst hg
    have hrest := ih (fun g' hg' => h g' (List.mem_cons_of_mem _ hg'))
    simp [loopLengths, mainStep, List.replicate_succ]
    exact hrest

lemma mem_preTryDraws_circle {lm : List (ℤ × ℤ)} {l : ℚ} {c : ℤ × ℤ}
    {rad : ℕ} {col : ℕ × ℕ × ℕ} {t : ℤ}
    (h : Draw.circle c rad col t ∈ preTryDraws lm l) : t = FILLED := by
  unfold preTryDraws at h
  by_cases hlen : l < MIN_LENGTH <;>
    simp [hlen, List.mem_append, List.mem_cons] at h <;>
    rcases h with h | h | h <;> tauto

lemma mem_tryDraws_circle {lm : List (ℤ × ℤ)} {l : ℚ} {m : Bool} {c : ℤ × ℤ}
    {rad : ℕ} {col : ℕ × ℕ × ℕ} {t : ℤ}
    (h : Draw.circle c rad col t ∈ tryDraws lm l m) :
    col = (if 0 < calculate_volume l then (0, 255, 0) else (0, 0, 255)) ∧
      t = LINE_THICKNESS ∧ 1 < |calculate_volume l| := by
  unfold tryDraws at h
  by_cases hmag : 1 < |calculate_volume l| <;>
    simp [hmag, List.mem_append, List.mem_cons] at h
  exact ⟨h.2.2.1, h.2.2.2, hmag⟩

/-- C1: for every distance `d`, `calculate_volume d` is the clamped linear
interpolation of `d` from [50, 300] to [-21, 0]: `-21` for `d ≤ 50`, `0` for
`d ≥ 300`, and on (50, 300) a strictly increasing linear function of `d`
whose affine formula passes through (50, -21) and (300, 0). -/
theorem C1_calculate_volume_clamped_interpolation :
    (∀ d : ℚ, d ≤ 50 → calculate_volume d = -21) ∧
    (∀ d : ℚ, 300 ≤ d → calculate_volume d = 0) ∧
    (∀ d : ℚ, 50 < d → d < 300 →
      calculate_volume d = -21 + (d - 50) * (21 / 250)) ∧
    (∀ a b : ℚ, 50 < a → a < b → b < 300 →
      calculate_volume a < calculate_volume b) ∧
    (-21 + ((50 : ℚ) - 50) * (21 / 250) = -21) ∧
    (-21 + ((300 : ℚ) - 50) * (21 / 250) = 0) := by
  refine ⟨?_, ?_, ?_, ?_, by norm_num, by norm_num⟩
  · intro d h
    exact np_interp_left _ _ _ h
  · intro d h
    exact np_interp_right _ _ (by decide) h
  · intro d h0 h1
    exact calculate_volume_mid h0 h1
  · intro a b ha hab hb
    exact calculate_volume_strictMonoOn ha hab hb

/-- C1 witness: concrete instances of each clamped/interpolated case. -/
theorem C1_witness :
    calculate_volume 40 = -21 ∧ calculate_volume 350 = 0 ∧
    calculate_volume 175 = -21 + ((175 : ℚ) - 50) * (21 / 250) ∧
    calculate_volume 100 < calculate_volume 200 :=
  ⟨C1_calculate_volume_clamped_interpolation.1 40 (by norm_num),
   C1_calculate_volume_clamped_interpolation.2.1 350 (by norm_num),
   C1_calculate_volume_clamped_interpolation.2.2.1 175 (by norm_num)
     (by norm_num),
   C1_calculate_volume_clamped_interpolation.2.2.2.1 100 200 (by norm_num)
     (by norm_num) (by norm_num)⟩

/-- C2: for every distance, the three derived quantities stay in their
declared ranges: the argument of every `SetMasterVolumeLevel` call (the
output of `calculate_volume`) lies in [-21, 0], the derived percentage lies
in [0, 100], and the derived bar position lies in [10, 600]. -/
theorem C2_derived_quantities_in_range :
    (∀ d : ℚ, -21 ≤ calculate_volume d ∧ calculate_volume d ≤ 0) ∧
    (∀ d : ℚ, 0 ≤ calculate_volume_percentage d ∧
      calculate_volume_percentage d ≤ 100) ∧
    (∀ d : ℚ, 10 ≤ calculate_volume_bar d ∧ calculate_volume_bar d ≤ 600) ∧
    (∀ (lm : List (ℤ × ℤ)) (l : ℚ) (r : Except String Unit) (m : Bool)
      (v : ℚ), v ∈ (process_hand_landmarks lm l r m).setVolumeCalls →
        -21 ≤ v ∧ v ≤ 0) := by
  refine ⟨fun d => ⟨calculate_volume_lb d, calculate_volume_nonpos d⟩,
    calculate_volume_percentage_bounds, calculate_volume_bar_bounds,
    ?_⟩
  intro lm l r m v hv
  unfold process_hand_landmarks at hv
  by_cases he : lm.isEmpty <;> rcases r with e | u <;> simp [he] at hv <;>
    exact hv ▸ ⟨calculate_volume_lb l, calculate_volume_nonpos l⟩

/-- C2 witness: the ranges at distance 120, including the argument actually
passed to `SetMasterVolumeLevel` on a successful frame. -/
theorem C2_witness :
    (calculate_volume 120 ∈
      (process_hand_landmarks [((1 : ℤ), 2)] 120 (Except.ok ())
        false).setVolumeCalls) ∧
    (-21 ≤ calculate_volume 120 ∧ calculate_volume 120 ≤ 0) ∧
    (0 ≤ calculate_volume_percentage 120 ∧
      calculate_volume_percentage 120 ≤ 100) ∧
    (10 ≤ calculate_volume_bar 120 ∧ calculate_volume_bar 120 ≤ 600) :=
  ⟨by simp [process_hand_landmarks],
   C2_derived_quantities_in_range.2.2.2 [((1 : ℤ), 2)] 120 (Except.ok ())
     false (calculate_volume 120) (by simp [process_hand_landmarks]),
   C2_derived_quantities_in_range.2.1 120,
   C2_derived_quantities_in_range.2.2.1 120⟩

/-- C6: `calculate_volume_bar` is strictly decreasing and linear on
(50, 300), maps (50, 300) onto (10, 600), and takes the value 600 at
distance 50 and 10 at distance 300. -/
theorem C6_calculate_volume_bar_decreasing :
    calculate_volume_bar 50 = 600 ∧
    calculate_volume_bar 300 = 10 ∧
    (∀ d : ℚ, 50 < d → d < 300 →
      calculate_volume_bar d = 600 - (d - 50) * (590 / 250)) ∧
    (∀ a b : ℚ, 50 < a → a < b → b < 300 →
      calculate_volume_bar b < calculate_volume_bar a) ∧
    (∀ d : ℚ, 50 < d → d < 300 →
      10 < calculate_volume_bar d ∧ calculate_volume_bar d < 600) ∧
    (∀ y : ℚ, 10 < y → y < 600 →
      ∃ d : ℚ, 50 < d ∧ d < 300 ∧ calculate_volume_bar d = y) := by
  refine ⟨np_interp_left _ _ _ (le_refl _),
    np_interp_right _ _ (by decide) (le_refl _), ?_, ?_, ?_, ?_⟩
  · intro d h0 h1
    exact calculate_volume_bar_mid h0 h1
  · intro a b ha hab hb
    rw [calculate_volume_bar_mid ha (lt_trans hab hb),
      calculate_volume_bar_mid (lt_trans ha hab) hb]
    linarith
  · intro d h0 h1
    rw [calculate_volume_bar_mid h0 h1]
    constructor <;> linarith
  · intro y hy10 hy600
    refine ⟨50 + (600 - y) * (250 / 590), by linarith, by linarith, ?_⟩
    rw [calculate_volume_bar_mid (by linarith) (by linarith)]
    ring

/-- C6 witness: concrete instances of the interpolated cases. -/
theorem C6_witness :
    calculate_volume_bar 150 = 600 - ((150 : ℚ) - 50) * (590 / 250) ∧
    calculate_volume_bar 200 < calculate_volume_bar 100 ∧
    (10 < calculate_volume_bar 150 ∧ calculate_volume_bar 150 < 600) ∧
    (∃ d : ℚ, 50 < d ∧ d < 300 ∧ calculate_volume_bar d = 305) :=
  ⟨C6_calculate_volume_bar_decreasing.2.2.1 150 (by norm_num) (by norm_num),
   C6_calculate_volume_bar_decreasing.2.2.2.1 100 200 (by norm_num)
     (by norm_num) (by norm_num),
   C6_calculate_volume_bar_decreasing.2.2.2.2.1 150 (by norm_num)
     (by norm_num),
   C6_calculate_volume_bar_decreasing.2.2.2.2.2 305 (by norm_num)
     (by norm_num)⟩

/-- C7: `calculate_volume_percentage` is strictly increasing and linear on
(50, 300), maps (50, 300) onto (0, 100), with value 0 at distance 50 and 100
at distance 300. -/
theorem C7_calculate_volume_percentage_increasing :
    calculate_volume_percentage 50 = 0 ∧
    calculate_volume_percentage 300 = 100 ∧
    (∀ d : ℚ, 50 < d → d < 300 →
      calculate_volume_percentage d = (d - 50) * (100 / 250)) ∧
    (∀ a b : ℚ, 50 < a → a < b → b < 300 →
      calculate_volume_percentage a < calculate_volume_percentage b) ∧
    (∀ d : ℚ, 50 < d → d < 300 →
      0 < calculate_volume_percentage d ∧ calculate_volume_percentage d < 100) ∧
    (∀ y : ℚ, 0 < y → y < 100 →
      ∃ d : ℚ, 50 < d ∧ d < 300 ∧ calculate_volume_percentage d = y) := by
  refine ⟨np_interp_left _ _ _ (le_refl _),
    np_interp_right _ _ (by decide) (le_refl _), ?_, ?_, ?_, ?_⟩
  · intro d h0 h1
    exact calculate_volume_percentage_mid h0 h1
  · intro a b ha hab hb
    rw [calculate_volume_percentage_mid ha (lt_trans hab hb),
      calculate_volume_percentage_mid (lt_trans ha hab) hb]
    linarith
  · intro d h0 h1
    rw [calculate_volume_percentage_mid h0 h1]
    constructor <;> linarith
  · intro y hy0 hy100
    refine ⟨50 + y * (250 / 100), by linarith, by linarith, ?_⟩
    rw [calculate_volume_percentage_mid (by linarith) (by linarith)]
    ring

/-- C7 witness: concrete instances of the interpolated cases. -/
theorem C7_witness :
    calculate_volume_percentage 150 = ((150 : ℚ) - 50) * (100 / 250) ∧
    calculate_volume_percentage 100 < calculate_volume_percentage 200 ∧
    (0 < calculate_volume_percentage 150 ∧
      calculate_volume_percentage 150 < 100) ∧
    (∃ d : ℚ, 50 < d ∧ d < 300 ∧ calculate_volume_percentage d = 60) :=
  ⟨C7_calculate_volume_percentage_increasing.2.2.1 150 (by norm_num)
     (by norm_num),
   C7_calculate_volume_percentage_increasing.2.2.2.1 100 200 (by norm_num)
     (by norm_num) (by norm_num),
   C7_calculate_volume_percentage_increasing.2.2.2.2.1 150 (by norm_num)
     (by norm_num),
   C7_calculate_volume_percentage_increasing.2.2.2.2.2 60 (by norm_num)
     (by norm_num)⟩

/-- C9: `display_volume_message` selects exactly one of three messages by
threshold bands: strictly above -5 the high message, strictly above -12 (and
at most -5) the moderate message, all other values the low message; at
exactly -5 the high message is not selected and at exactly -12 the moderate
message is not selected. -/
theorem C9_message_threshold_bands :
    (∀ v : ℚ, -5 < v →
      display_volume_message v = "Volume is high! Lower it down a bit.") ∧
    (∀ v : ℚ, -12 < v → v ≤ -5 →
      display_volume_message v = "Volume is moderate. Enjoy your music!") ∧
    (∀ v : ℚ, v ≤ -12 →
      display_volume_message v =
        "Volume is low. Turn it up for a better experience!") ∧
    display_volume_message (-5) ≠ "Volume is high! Lower it down a bit." ∧
    display_volume_message (-12) ≠
      "Volume is moderate. Enjoy your music!" := by
  refine ⟨?_, ?_, ?_, ?_, ?_⟩
  · intro v h
    simp [display_volume_message, h]
  · intro v h12 h5
    have h5' : ¬ (-5 : ℚ) < v := by linarith
    simp [display_volume_message, h5', h12]
  · intro v h
    have h5' : ¬ (-5 : ℚ) < v := by linarith
    have h12' : ¬ (-12 : ℚ) < v := by linarith
    simp [display_volume_message, h5', h12']
  · have : display_volume_message (-5) =
        "Volume is moderate. Enjoy your music!" := by
      norm_num [display_volume_message]
    rw [this]
    decide
  · have : display_volume_message (-12) =
        "Volume is low. Turn it up for a better experience!" := by
      norm_num [display_volume_message]
    rw [this]
    decide

/-- C9 witness: one value in each band. -/
theorem C9_witness :
    display_volume_message (-4) = "Volume is high! Lower it down a bit." ∧
    display_volume_message (-8) = "Volume is moderate. Enjoy your music!" ∧
    display_volume_message (-15) =
      "Volume is low. Turn it up for a better experience!" :=
  ⟨C9_message_threshold_bands.1 (-4) (by norm_num),
   C9_message_threshold_bands.2.1 (-8) (by norm_num) (by norm_num),
   C9_message_threshold_bands.2.2.1 (-15) (by norm_num)⟩

lemma isEmpty_false_of_ne_nil {α : Type} {l : List α} (h : l ≠ []) :
    l.isEmpty = false := by
  cases l with
  | nil => exact absurd rfl h
  | cons a t => rfl

lemma preTryDraws_not_tryOverlay (lm : List (ℤ × ℤ)) (l : ℚ) :
    ∀ d ∈ preTryDraws lm l, isTryOverlay d = false := by
  intro d hd
  unfold preTryDraws at hd
  by_cases hlen : l < MIN_LENGTH
  · simp [hlen] at hd
    rcases hd with rfl | rfl | rfl | rfl <;> simp [isTryOverlay, FILLED]
  · simp [hlen] at hd
    rcases hd with rfl | rfl | rfl <;> simp [isTryOverlay, FILLED]

lemma process_circle_thickness_color {lm : List (ℤ × ℤ)} {l : ℚ}
    {r : Except String Unit} {m : Bool} {c : ℤ × ℤ} {rad : ℕ}
    {col : ℕ × ℕ × ℕ} {t : ℤ}
    (hmem : Draw.circle c rad col t ∈ (process_hand_landmarks lm l r m).draws)
    (ht : t ≠ FILLED) : col = (0, 0, 255) := by
  unfold process_hand_landmarks at hmem
  by_cases he : lm.isEmpty
  · simp [he] at hmem
  · rcases r with e | u
    · simp [he] at hmem
      exact absurd (mem_preTryDraws_circle hmem) ht
    · simp [he, List.mem_append] at hmem
      rcases hmem with hmem | hmem
      · exact absurd (mem_preTryDraws_circle hmem) ht
      · have h := (mem_tryDraws_circle hmem).1
        rwa [if_neg (not_lt.mpr (calculate_volume_nonpos l))] at h

lemma flash_mem_process {lm : List (ℤ × ℤ)} {l : ℚ} {m : Bool}
    (hlm : lm ≠ []) (hmag : 1 < |calculate_volume l|) :
    Draw.circle (lm.getLastD (0, 0)) CIRCLE_RADIUS (0, 0, 255)
      LINE_THICKNESS ∈
      (process_hand_landmarks lm l (Except.ok ()) m).draws := by
  have he := isEmpty_false_of_ne_nil hlm
  have hneg : ¬ 0 < calculate_volume l :=
    not_lt.mpr (calculate_volume_nonpos l)
  simp [process_hand_landmarks, he, tryDraws, hmag, hneg]

/-- C4: for every nonempty landmark list, a failure of the external
`SetMasterVolumeLevel` call is caught inside `process_hand_landmarks`: the
error is logged, the function still returns the measured distance, and none
of the `try`-block overlays (rectangles, text, flash circle) are drawn —
only the pre-`try` drawings remain. -/
theorem C4_apply_failure_contained (lm : List (ℤ × ℤ)) (l : ℚ) (e : String)
    (m : Bool) (hlm : lm ≠ []) :
    (process_hand_landmarks lm l (Except.error e) m).returnedLength = l ∧
    (process_hand_landmarks lm l (Except.error e) m).logs =
      ["Error updating volume: " ++ e] ∧
    (process_hand_landmarks lm l (Except.error e) m).draws =
      preTryDraws lm l ∧
    ∀ d ∈ (process_hand_landmarks lm l (Except.error e) m).draws,
      isTryOverlay d = false := by
  have he := isEmpty_false_of_ne_nil hlm
  refine ⟨?_, ?_, ?_, ?_⟩
  · simp [process_hand_landmarks, he]
  · simp [process_hand_landmarks, he]
  · simp [process_hand_landmarks, he]
  · intro d hd
    have hd' : d ∈ preTryDraws lm l := by
      simpa [process_hand_landmarks, he] using hd
    exact preTryDraws_not_tryOverlay lm l d hd'

/-- C4 witness: a concrete failing apply is logged and the measured distance
is still returned. -/
theorem C4_witness :
    (process_hand_landmarks [((3 : ℤ), 4)] 200 (Except.error "boom")
      false).returnedLength = 200 ∧
    (process_hand_landmarks [((3 : ℤ), 4)] 200 (Except.error "boom")
      false).logs = ["Error updating volume: " ++ "boom"] :=
  ⟨(C4_apply_failure_contained [((3 : ℤ), 4)] 200 "boom" false
      (List.cons_ne_nil _ _)).1,
   (C4_apply_failure_contained [((3 : ℤ), 4)] 200 "boom" false
      (List.cons_ne_nil _ _)).2.1⟩

/-- C5 counterexample: between two consecutive hand frames the measured
distance grows from 100 to 200, so the applied volume strictly increases and
its magnitude exceeds 1.0 on the second frame — yet the flash circle drawn
on that frame is red `(0, 0, 255)`, not green: the claimed
green-if-increasing colouring does not hold on the code. -/
theorem C5_counterexample :
    calculate_volume 100 < calculate_volume 200 ∧
    1 < |calculate_volume 200| ∧
    (Draw.circle ((7 : ℤ), 8) CIRCLE_RADIUS (0, 0, 255) LINE_THICKNESS ∈
      (process_hand_landmarks [((7 : ℤ), 8)] 200 (Except.ok ())
        false).draws) ∧
    ¬ Draw.circle ((7 : ℤ), 8) CIRCLE_RADIUS (0, 255, 0) LINE_THICKNESS ∈
      (process_hand_landmarks [((7 : ℤ), 8)] 200 (Except.ok ())
        false).draws := by
  have hv : calculate_volume (200 : ℚ) = -42 / 5 := by
    rw [calculate_volume_mid (by norm_num) (by norm_num)]
    norm_num
  have hmag : 1 < |calculate_volume (200 : ℚ)| := by
    rw [hv, abs_of_neg (by norm_num : (-42 / 5 : ℚ) < 0)]
    norm_num
  refine ⟨calculate_volume_strictMonoOn (by norm_num) (by norm_num)
    (by norm_num), hmag, ?_, ?_⟩
  · simpa using flash_mem_process (List.cons_ne_nil _ _) hmag
  · intro hgreen
    have hcol := process_circle_thickness_color hgreen (by decide)
    exact absurd hcol (by decide)

/-- C5 amended: whenever the just-applied volume magnitude exceeds 1.0 (and
the landmark list is nonempty), the transient flash circle is drawn at the
last enumerated landmark position — but its colour is always red
`(0, 0, 255)`, never green, because the green branch requires
`volume_level > 0` and `calculate_volume` never exceeds 0; the colour does
not depend on whether the volume increased or decreased. -/
theorem C5_amended_flash_is_red (lm : List (ℤ × ℤ)) (l : ℚ) (m : Bool)
    (hlm : lm ≠ []) (hmag : 1 < |calculate_volume l|) :
    (Draw.circle (lm.getLastD (0, 0)) CIRCLE_RADIUS (0, 0, 255)
      LINE_THICKNESS ∈
      (process_hand_landmarks lm l (Except.ok ()) m).draws) ∧
    (∀ (c : ℤ × ℤ) (rad : ℕ) (col : ℕ × ℕ × ℕ),
      Draw.circle c rad col LINE_THICKNESS ∈
        (process_hand_landmarks lm l (Except.ok ()) m).draws →
      col = (0, 0, 255)) :=
  ⟨flash_mem_process hlm hmag,
   fun _ _ _ hmem => process_circle_thickness_color hmem (by decide)⟩

/-- C5 amended witness: the red flash circle is drawn at distance 80. -/
theorem C5_witness :
    Draw.circle ((9 : ℤ), 10) CIRCLE_RADIUS (0, 0, 255) LINE_THICKNESS ∈
      (process_hand_landmarks [((9 : ℤ), 10)] 80 (Except.ok ())
        false).draws := by
  have hv : calculate_volume (80 : ℚ) = -462 / 25 := by
    rw [calculate_volume_mid (by norm_num) (by norm_num)]
    norm_num
  have hmag : 1 < |calculate_volume (80 : ℚ)| := by
    rw [hv, abs_of_neg (by norm_num : (-462 / 25 : ℚ) < 0)]
    norm_num
  simpa using (C5_amended_flash_is_red [((9 : ℤ), 10)] 80 false
    (List.cons_ne_nil _ _) hmag).1

/-- C10: whenever the visual-feedback flash circle is drawn (the only
unfilled circle the function ever draws), its colour is red `(0, 0, 255)`:
the green branch requires `volume_level > 0`, which is unreachable because
`calculate_volume` never returns a value greater than 0. -/
theorem C10_flash_circle_always_red :
    (∀ l : ℚ, calculate_volume l ≤ 0) ∧
    (∀ (lm : List (ℤ × ℤ)) (l : ℚ) (r : Except String Unit) (m : Bool)
      (c : ℤ × ℤ) (rad : ℕ) (col : ℕ × ℕ × ℕ) (t : ℤ),
      Draw.circle c rad col t ∈ (process_hand_landmarks lm l r m).draws →
      t ≠ FILLED → col = (0, 0, 255)) :=
  ⟨calculate_volume_nonpos,
   fun _ _ _ _ _ _ _ _ hmem ht => process_circle_thickness_color hmem ht⟩

/-- C10 witness: the unfilled circle actually drawn at distance 200 is red. -/
theorem C10_witness :
    calculate_volume 200 ≤ 0 ∧
    ((0, 0, 255) : ℕ × ℕ × ℕ) = (0, 0, 255) := by
  have hv : calculate_volume (200 : ℚ) = -42 / 5 := by
    rw [calculate_volume_mid (by norm_num) (by norm_num)]
    norm_num
  have hmag : 1 < |calculate_volume (200 : ℚ)| := by
    rw [hv, abs_of_neg (by norm_num : (-42 / 5 : ℚ) < 0)]
    norm_num
  exact ⟨C10_flash_circle_always_red.1 200,
    C10_flash_circle_always_red.2 [((5 : ℤ), 6)] 200 (Except.ok ()) false
      ((5 : ℤ), 6) CIRCLE_RADIUS (0, 0, 255) LINE_THICKNESS
      (by simpa using flash_mem_process (List.cons_ne_nil _ _) hmag)
      (by decide)⟩

lemma indicator_interp_eq {v : ℚ} (h0 : -21 ≤ v) (h1 : v ≤ 0) :
    np_interp v MIN_VOLUME MAX_VOLUME 400 150 = 400 - (v + 21) * (250 / 21) := by
  have hcast : np_interp v MIN_VOLUME MAX_VOLUME 400 150 =
      np_interp v (-21) 0 400 150 := rfl
  rw [hcast]
  rcases eq_or_lt_of_le h0 with h | h
  · rw [← h, np_interp_left _ _ _ (le_refl _)]
    norm_num
  · rcases eq_or_lt_of_le h1 with h' | h'
    · rw [h', np_interp_right _ _ (by norm_num) (le_refl _)]
      norm_num
    · rw [np_interp_mid _ _ h h']
      ring

lemma indicator_interp_bounds {v : ℚ} (h0 : -21 ≤ v) (h1 : v ≤ 0) :
    150 ≤ np_interp v MIN_VOLUME MAX_VOLUME 400 150 ∧
      np_interp v MIN_VOLUME MAX_VOLUME 400 150 ≤ 400 := by
  rw [indicator_interp_eq h0 h1]
  constructor <;> linarith

/-- C8 counterexample: the indicator position computed by
`display_volume_indicator` (which truncates the interpolated value with
`int` before drawing) is not strictly decreasing in the volume level:
`-1001/100 < -10`, both lie in [-21, 0], yet both volume levels yield the
same truncated position 269. -/
theorem C8_counterexample :
    ((-1001 : ℚ) / 100 < -10) ∧ (-21 ≤ (-1001 : ℚ) / 100) ∧
    ((-10 : ℚ) ≤ 0) ∧
    display_volume_indicator_y ((-1001 : ℚ) / 100) = 269 ∧
    display_volume_indicator_y (-10) = 269 := by
  refine ⟨by norm_num, by norm_num, by norm_num, ?_, ?_⟩
  · unfold display_volume_indicator_y
    rw [indicator_interp_eq (by norm_num) (by norm_num)]
    unfold pyInt
    rw [if_pos (by norm_num)]
    norm_num
  · unfold display_volume_indicator_y
    rw [indicator_interp_eq (by norm_num) (by norm_num)]
    unfold pyInt
    rw [if_pos (by norm_num)]
    norm_num

/-- C8 amended: on [-21, 0] the interpolated indicator position is a
strictly decreasing linear function of the volume level, and the truncated
position actually computed by `display_volume_indicator` is weakly
decreasing (truncation can merge nearby levels), with value 400 at volume
-21 and 150 at volume 0. -/
theorem C8_amended_indicator_antitone :
    (∀ a b : ℚ, -21 ≤ a → a < b → b ≤ 0 →
      np_interp b MIN_VOLUME MAX_VOLUME 400 150 <
        np_interp a MIN_VOLUME MAX_VOLUME 400 150) ∧
    (∀ a b : ℚ, -21 ≤ a → a ≤ b → b ≤ 0 →
      display_volume_indicator_y b ≤ display_volume_indicator_y a) ∧
    display_volume_indicator_y (-21) = 400 ∧
    display_volume_indicator_y 0 = 150 := by
  refine ⟨?_, ?_, ?_, ?_⟩
  · intro a b ha hab hb
    rw [indicator_interp_eq ha (by linarith),
      indicator_interp_eq (by linarith) hb]
    linarith
  · intro a b ha hab hb
    have hia := indicator_interp_bounds ha (by linarith : a ≤ 0)
    have hib := indicator_interp_bounds (by linarith : (-21 : ℚ) ≤ b) hb
    have hmono : np_interp b MIN_VOLUME MAX_VOLUME 400 150 ≤
        np_interp a MIN_VOLUME MAX_VOLUME 400 150 := by
      rw [indicator_interp_eq ha (by linarith),
        indicator_interp_eq (by linarith) hb]
      linarith
    unfold display_volume_indicator_y pyInt
    rw [if_pos (by linarith : (0 : ℚ) ≤ _), if_pos (by linarith : (0 : ℚ) ≤ _)]
    exact Int.floor_le_floor hmono
  · unfold display_volume_indicator_y
    rw [indicator_interp_eq (by norm_num) (by norm_num)]
    unfold pyInt
    rw [if_pos (by norm_num)]
    norm_num
  · unfold display_volume_indicator_y
    rw [indicator_interp_eq (by norm_num) (by norm_num)]
    unfold pyInt
    rw [if_pos (by norm_num)]
    norm_num

/-- C8 amended witness: strict decrease of the interpolant from -21 to 0 and
weak decrease of the truncated position from -15 to 0. -/
theorem C8_witness :
    np_interp 0 MIN_VOLUME MAX_VOLUME 400 150 <
      np_interp (-21) MIN_VOLUME MAX_VOLUME 400 150 ∧
    display_volume_indicator_y 0 ≤ display_volume_indicator_y (-15) :=
  ⟨C8_amended_indicator_antitone.1 (-21) 0 (by norm_num) (by norm_num)
     (by norm_num),
   C8_amended_indicator_antitone.2.1 (-15) 0 (by norm_num) (by norm_num)
     (by norm_num)⟩

/-- C3: in the main loop, an iteration whose frame has no detected hand (a
`none` entry, here every entry of `post`) uses, for its volume-level
computation at line 147, exactly the distance computed (and returned by
`process_hand_landmarks`) on the most recent hand-detected iteration — the
`length` state is held, not reset to zero. -/
theorem C3_no_hand_frame_reuses_last_distance (init : ℚ)
    (pre post : List (Option Frame)) (f : Frame)
    (hpost : ∀ g ∈ post, g = none) (i : ℕ) (hi : i < post.length) :
    (pre ++ some f :: post).getD (pre.length + 1 + i) none = none ∧
    (loopLengths init (pre ++ some f :: post)).getD (pre.length + 1 + i) 0 =
      f.dist ∧
    runFrame f = f.dist := by
  have hidx : pre.length + 1 + i = pre.length + (1 + i) := by omega
  have h1i : 1 + i = i + 1 := by omega
  refine ⟨?_, ?_, runFrame_dist f⟩
  · rw [hidx, getD_append_left_length, h1i, List.getD_cons_succ]
    exact getD_of_all_none post hpost i
  · rw [loopLengths_append, hidx]
    have hlen : pre.length = (loopLengths init pre).length :=
      (loopLengths_length init pre).symm
    rw [hlen, getD_append_left_length]
    simp only [loopLengths, mainStep]
    rw [h1i, List.getD_cons_succ, runFrame_dist,
      loopLengths_of_all_none f.dist post hpost]
    exact getD_replicate_lt 0 f.dist hi

/-- C3 witness: frames [no hand, hand at distance 120, no hand, no hand] —
the last no-hand iteration still uses 120. -/
theorem C3_witness :
    (loopLengths 300 ([none] ++ some
      (⟨[((0 : ℤ), 0)], 120, Except.ok (), false⟩ : Frame) ::
        [none, none])).getD (1 + 1 + 1) 0 = 120 :=
  (C3_no_hand_frame_reuses_last_distance 300 [none] [none, none]
    ⟨[((0 : ℤ), 0)], 120, Except.ok (), false⟩
    (by
      intro g hg
      rcases List.mem_cons.mp hg with h | h
      · exact h
      · exact List.mem_singleton.mp h)
    1 (by decide)).2.1

end Control
